import Mathlib

/-!
Shallow embedding of the versioduo express-mini firmware core
(src/express-mini.ino): a two-channel analog expression controller that
emits MIDI control-change events and relays daisy-chained link traffic.

External libraries (V2MIDI, V2LED, V2Link, V2Potentiometer, V2Device) are
consumed as black boxes: only the constants and the call surface that the
sketch uses are modelled. Machine integers are Nat with explicit mod 2^32
where 32-bit wraparound matters; float fractions are modelled as Rat.
-/

/-- Number of analog channels: constexpr static uint8_t n_potis = 2. -/
@[reducible] def n_potis : Nat := 2

/-- V2MIDI::CC::GeneralPurpose1, the standard MIDI controller number 16. -/
def CC.GeneralPurpose1 : Nat := 16

/-- V2MIDI::CC::AllSoundOff, the standard MIDI controller number 120. -/
def CC.AllSoundOff : Nat := 120

/-- V2MIDI::CC::AllNotesOff, the standard MIDI controller number 123. -/
def CC.AllNotesOff : Nat := 123

/-- V2MIDI::C(octave), the MIDI note number of the note C in the given
octave; the V2MIDI library defines C(3) = 60 (middle C). -/
def V2MIDI.C (octave : Int) : Int := (octave + 2) * 12

/-- The potentiometer configuration field .min{0.05} of the source
(struct V2Potentiometer::Config on line 57). -/
def potiConfigMin : Rat := 5 / 100

/-- The potentiometer configuration field .max{0.7} of the source. -/
def potiConfigMax : Rat := 7 / 10

/-- Public read surface of one V2Potentiometer (external library, consumed
as a black box): the quantized step and the smoothed fractional value. -/
structure Poti where
  step : Nat
  fraction : Rat
deriving DecidableEq, Repr

/-- V2Potentiometer reset: clears filter state and quantized step to the
minimum value (black-box contract of the external sampler library). -/
def potiReset : Poti := { step := 0, fraction := 0 }

/-- State of one WS2812 pixel as the last driver command applied to it:
initial, setHSV(h, s, v), or setBrightness(b). -/
inductive Led where
  | init : Led
  | hsv : Rat → Rat → Rat → Led
  | brightness : Rat → Led
deriving DecidableEq, Repr

/-- An outgoing MIDI control-change message: channel, controller, value
(what setControlChange stores into the packet). -/
structure CCMsg where
  channel : Nat
  controller : Nat
  value : Nat
deriving DecidableEq, Repr

/-- Mutable state of the Device object: config.channel, the two samplers,
the cached last-emitted steps, the two timer references, the scratch MIDI
packet, the WS2812 pixels and the onboard status indicator pin. -/
structure DeviceState where
  channel : Nat
  potis : Fin n_potis → Poti
  steps : Fin n_potis → Nat
  measureUsec : Nat
  eventsUsec : Nat
  midi : Option CCMsg
  leds : Nat → Led
  ledOnboard : Bool

/-- Initial device state: config.channel value-initialized to 0, fresh
samplers, zeroed step cache and timers, empty scratch packet, LEDs off. -/
def deviceInit : DeviceState :=
  { channel := 0
    potis := fun _ => potiReset
    steps := fun _ => 0
    measureUsec := 0
    eventsUsec := 0
    midi := none
    leds := fun _ => Led.init
    ledOnboard := false }

/-- Device::play(note, velocity), lines 36 to 54: map the note below
V2MIDI::C(3) or at offset at least n_potis to no effect; otherwise light
the indicator of the addressed channel with HSV value velocity / 127 when
velocity is positive, or switch it off when velocity is zero. -/
def Device.play (st : DeviceState) (note velocity : Int) : DeviceState :=
  if note < V2MIDI.C 3 then st
  else
    let n : Int := note - V2MIDI.C 3
    if n ≥ (n_potis : Int) then st
    else
      let fraction : Rat := (velocity : Rat) / 127
      if velocity > 0 then
        { st with
            ledOnboard := true
            leds := Function.update st.leds n.toNat (Led.hsv 120 1 fraction) }
      else
        { st with
            ledOnboard := false
            leds := Function.update st.leds n.toNat (Led.brightness 0) }

/-- Device::handleNote override, line 113: delegates to play. -/
def Device.handleNote (st : DeviceState) (note velocity : Int) : DeviceState :=
  Device.play st note velocity

/-- Device::handleNoteOff override, line 117: delegates to play with
velocity 0. -/
def Device.handleNoteOff (st : DeviceState) (note : Int) : DeviceState :=
  Device.play st note 0

/-- Body of the per-channel iteration of Device::sendEvents, lines 103 to
110: skip the channel when force is unset and the cached step equals the
current sampler step; otherwise set the pixel brightness to the sampler
fraction, send one control-change message built in the scratch packet, and
update the cached step. -/
def Device.sendEventsChannel (st : DeviceState) (force : Bool) (i : Fin n_potis) :
    DeviceState × List CCMsg :=
  if force = false ∧ st.steps i = (st.potis i).step then (st, [])
  else
    let msg : CCMsg :=
      { channel := st.channel
        controller := CC.GeneralPurpose1 + i.val
        value := (st.potis i).step }
    ({ st with
        leds := Function.update st.leds i.val (Led.brightness (st.potis i).fraction)
        midi := some msg
        steps := Function.update st.steps i (st.potis i).step },
      [msg])

/-- Device::sendEvents(force), lines 102 to 111: the loop over the two
channels, threading the state and collecting the emitted messages. -/
def Device.sendEvents (st : DeviceState) (force : Bool) : DeviceState × List CCMsg :=
  let r0 := Device.sendEventsChannel st force 0
  let r1 := Device.sendEventsChannel r0.1 force 1
  (r1.1, r0.2 ++ r1.2)

/-- Device::allNotesOff, lines 78 to 80: a forced emission pass. -/
def Device.allNotesOff (st : DeviceState) : DeviceState × List CCMsg :=
  Device.sendEvents st true

/-- Device::handleControlChange override, lines 121 to 128: AllSoundOff and
AllNotesOff trigger allNotesOff; every other controller falls through the
switch with no effect. -/
def Device.handleControlChange (st : DeviceState) (channel controller value : Nat) :
    DeviceState × List CCMsg :=
  if controller = CC.AllSoundOff ∨ controller = CC.AllNotesOff then
    Device.allNotesOff st
  else (st, [])

/-- Device::handleReset override, lines 65 to 76: onboard pin low, LED
driver reset, every sampler reset, step cache zeroed, measure timer
reference zeroed, events timer reference set to the current micros() value,
scratch packet cleared. The argument now is the micros() reading. -/
def Device.handleReset (st : DeviceState) (now : Nat) : DeviceState :=
  { st with
      ledOnboard := false
      leds := fun _ => Led.init
      potis := fun _ => potiReset
      steps := fun _ => 0
      measureUsec := 0
      eventsUsec := now
      midi := none }

/-- 2 ^ 32, the modulus of the 32-bit unsigned long arithmetic of the
SAMD target. -/
def U32 : Nat := 2 ^ 32

/-- Wraparound-safe unsigned 32-bit subtraction, the value of the C cast
(unsigned long)(a - b). -/
def usub32 (a b : Nat) : Nat := (a % U32 + (U32 - b % U32)) % U32

/-- First half of Device::handleLoop, lines 83 to 88: the sampling task.
The successive micros() readings of one iteration are passed as arguments
(t1 checks the measure timer, t2 is recorded on a measure fire). raw gives
the analogRead fraction of each channel and measureFn is the black-box
smoothing step of the external V2Potentiometer measure call. -/
def Device.handleLoopMeasure (st : DeviceState) (t1 t2 : Nat)
    (raw : Fin n_potis → Rat) (measureFn : Poti → Rat → Poti) : DeviceState :=
  if usub32 t1 st.measureUsec > 10 * 1000 then
    { st with
        potis := fun i => measureFn (st.potis i) (raw i)
        measureUsec := t2 }
  else st

/-- Second half of Device::handleLoop, lines 90 to 93: the emission task,
run on the state left by the sampling task. -/
def Device.handleLoop (st : DeviceState) (t1 t2 t3 t4 : Nat)
    (raw : Fin n_potis → Rat) (measureFn : Poti → Rat → Poti) :
    DeviceState × List CCMsg :=
  let st1 := Device.handleLoopMeasure st t1 t2 raw measureFn
  if usub32 t3 st1.eventsUsec > 50 * 1000 then
    let r := Device.sendEvents st1 false
    ({ r.1 with eventsUsec := t4 }, r.2)
  else (st1, [])

/-- Clamping of the external channel value in Device::importConfiguration,
lines 151 to 156: below 1 stores 0, above 16 stores 15, otherwise stores
channel minus 1. -/
def importChannel (channel : Nat) : Nat :=
  if channel < 1 then 0
  else if channel > 16 then 15
  else channel - 1

/-- Device::importConfiguration, lines 145 to 159: when the record carries
a channel field, store its clamped value; otherwise leave the state
unchanged. -/
def Device.importConfiguration (st : DeviceState) (channelField : Option Nat) :
    DeviceState :=
  match channelField with
  | none => st
  | some c => { st with channel := importChannel c }

/-- Device::exportConfiguration, line 165: the exported external channel
value is config.channel + 1. -/
def Device.exportChannel (st : DeviceState) : Nat := st.channel + 1

/-- A MIDI packet as the routers see it: the USB cable number (port) and an
opaque payload. -/
structure MidiPacket where
  port : Nat
  data : Nat
deriving DecidableEq, Repr

/-- MIDI::loop, lines 199 to 210, for one packet received from the Local
USB transport. Result: (packets dispatched to the Device core, packets sent
to the Downstream Socket). Port 0 is dispatched locally; a nonzero port is
forwarded downstream with the port decremented by one. -/
def MIDI.loop (p : MidiPacket) : List MidiPacket × List MidiPacket :=
  if p.port = 0 then ([p], [])
  else ([], [{ p with port := p.port - 1 }])

/-- V2Link packet types: MIDI payloads and everything else. -/
inductive LinkPacketType where
  | MIDI : LinkPacketType
  | other : LinkPacketType
deriving DecidableEq, Repr

/-- A link-layer packet: type tag, address byte, MIDI payload. -/
structure LinkPacket where
  type : LinkPacketType
  address : Nat
  midi : MidiPacket
deriving DecidableEq, Repr

/-- Link::receiveSocket, lines 233 to 245, for one packet received from the
Downstream transport; connected is Device.usb.midi.connected(). Result:
(packets sent to the Local USB transport, packets sent to the Upstream
Plug). Address 0x0f is dropped; otherwise the payload is forwarded to Local
with its port set to address + 1, only when the USB consumer is connected.
Nothing is ever sent to Upstream from this handler. -/
def Link.receiveSocket (connected : Bool) (packet : LinkPacket) :
    List MidiPacket × List MidiPacket :=
  if packet.type = LinkPacketType.MIDI then
    if packet.address = 0x0f then ([], [])
    else if connected then
      ([{ packet.midi with port := packet.address + 1 }], [])
    else ([], [])
  else ([], [])

/-- The messages of an emission pass that belong to channel i, identified
by their controller number CC.GeneralPurpose1 + i. -/
def msgsFor (i : Fin n_potis) (msgs : List CCMsg) : List CCMsg :=
  msgs.filter (fun m => m.controller == CC.GeneralPurpose1 + i.val)

/-- The display intensity as the specification words describe it for claim
C4: velocity / 127 scaled into the configured [min, max] display range
(the only configured [min, max] pair of the source is the potentiometer
configuration). This definition follows the specification text, not the
source, and exists to be compared against Device.play. -/
def displayIntensitySpec (velocity : Int) : Rat :=
  potiConfigMin + ((velocity : Rat) / 127) * (potiConfigMax - potiConfigMin)

/-- Claim C2: a message arriving on the Local transport with port 0 is
dispatched to the Device core exactly once and never forwarded to
Downstream; with a nonzero port it is not dispatched locally and is
forwarded to Downstream with the port decremented by exactly one. -/
theorem claim_C2 (p : MidiPacket) :
    (p.port = 0 → MIDI.loop p = ([p], [])) ∧
    (p.port ≠ 0 →
      (MIDI.loop p).1 = [] ∧
      (MIDI.loop p).2 = [{ p with port := p.port - 1 }] ∧
      ∀ q ∈ (MIDI.loop p).2, q.port + 1 = p.port) := by
  constructor
  · intro h
    simp [MIDI.loop, h]
  · intro h
    refine ⟨by simp [MIDI.loop, h], by simp [MIDI.loop, h], ?_⟩
    intro q hq
    simp only [MIDI.loop, if_neg h, List.mem_singleton] at hq
    subst hq
    exact Nat.succ_pred_eq_of_pos (Nat.pos_of_ne_zero h)

/-- Closed instance of claim C2 at concrete packets on both branches. -/
theorem claim_C2_witness :
    MIDI.loop ⟨0, 42⟩ = ([⟨0, 42⟩], []) ∧
    (MIDI.loop ⟨3, 7⟩).1 = [] ∧ (MIDI.loop ⟨3, 7⟩).2 = [⟨2, 7⟩] :=
  ⟨(claim_C2 ⟨0, 42⟩).1 rfl,
   ((claim_C2 ⟨3, 7⟩).2 (by decide)).1,
   ((claim_C2 ⟨3, 7⟩).2 (by decide)).2.1⟩

/-- Claim C3: a MIDI-type packet arriving on Downstream with the reserved
address 0x0f is dropped, forwarded neither to Local nor to Upstream; any
other address is forwarded to Local with the address incremented by one
exactly when the Local consumer is connected, and is silently dropped
otherwise; nothing is ever sent to Upstream. -/
theorem claim_C3 (a : Nat) (m : MidiPacket) (connected : Bool) :
    (a = 0x0f →
      Link.receiveSocket connected ⟨LinkPacketType.MIDI, a, m⟩ = ([], [])) ∧
    (a ≠ 0x0f →
      (Link.receiveSocket connected ⟨LinkPacketType.MIDI, a, m⟩).2 = [] ∧
      (Link.receiveSocket connected ⟨LinkPacketType.MIDI, a, m⟩).1 =
        (if connected then [{ m with port := a + 1 }] else [])) := by
  constructor
  · intro h
    simp [Link.receiveSocket, h]
  · intro h
    cases connected <;> simp [Link.receiveSocket, h]

/-- Closed instance of claim C3: the reserved address dropped, a normal
address forwarded with the address incremented when connected, and dropped
with no upstream traffic when not connected. -/
theorem claim_C3_witness :
    Link.receiveSocket true ⟨LinkPacketType.MIDI, 15, ⟨0, 9⟩⟩ = ([], []) ∧
    (Link.receiveSocket true ⟨LinkPacketType.MIDI, 3, ⟨0, 9⟩⟩).1 = [⟨4, 9⟩] ∧
    (Link.receiveSocket false ⟨LinkPacketType.MIDI, 3, ⟨0, 9⟩⟩).1 = [] ∧
    (Link.receiveSocket false ⟨LinkPacketType.MIDI, 3, ⟨0, 9⟩⟩).2 = [] := by
  refine ⟨(claim_C3 15 ⟨0, 9⟩ true).1 rfl, ?_, ?_, ?_⟩
  · have h := ((claim_C3 3 ⟨0, 9⟩ true).2 (by decide)).2
    simpa using h
  · have h := ((claim_C3 3 ⟨0, 9⟩ false).2 (by decide)).2
    simpa using h
  · exact ((claim_C3 3 ⟨0, 9⟩ false).2 (by decide)).1

/-- Claim C7: a configuration import carrying external channel value c
stores c - 1 when 1 ≤ c ≤ 16, clamps to 0 when c < 1 and to 15 when
c > 16; the stored value is always at most 15; in particular importing 0
stores 0 and importing 20 stores 15. -/
theorem claim_C7 (st : DeviceState) (c : Nat) :
    (1 ≤ c → c ≤ 16 → (Device.importConfiguration st (some c)).channel = c - 1) ∧
    (c < 1 → (Device.importConfiguration st (some c)).channel = 0) ∧
    (16 < c → (Device.importConfiguration st (some c)).channel = 15) ∧
    (Device.importConfiguration st (some c)).channel ≤ 15 ∧
    (Device.importConfiguration st (some 0)).channel = 0 ∧
    (Device.importConfiguration st (some 20)).channel = 15 := by
  simp only [Device.importConfiguration, importChannel]
  refine ⟨?_, ?_, ?_, ?_, by norm_num, by norm_num⟩ <;>
    intros <;> split_ifs <;> omega

/-- Closed instance of claim C7 at external channel values 5, 0 and 20. -/
theorem claim_C7_witness :
    (Device.importConfiguration deviceInit (some 5)).channel = 4 ∧
    (Device.importConfiguration deviceInit (some 0)).channel = 0 ∧
    (Device.importConfiguration deviceInit (some 20)).channel = 15 :=
  ⟨(claim_C7 deviceInit 5).1 (by decide) (by decide),
   (claim_C7 deviceInit 0).2.1 (by decide),
   (claim_C7 deviceInit 20).2.2.1 (by decide)⟩

/-- Claim C8: a system reset zeroes every cached last-emitted step, zeroes
the sampling timer reference, sets the emission timer reference to the
current time, clears the scratch message buffer to its initial value,
resets every channel sampler and clears the status indicator. -/
theorem claim_C8 (st : DeviceState) (now : Nat) (i : Fin n_potis) :
    (Device.handleReset st now).steps i = 0 ∧
    (Device.handleReset st now).measureUsec = 0 ∧
    (Device.handleReset st now).eventsUsec = now ∧
    (Device.handleReset st now).midi = none ∧
    (Device.handleReset st now).potis i = potiReset ∧
    (Device.handleReset st now).ledOnboard = false := by
  simp [Device.handleReset]

/-- Claim C9: configuration export followed by import is the identity on
the stored channel: exporting writes channel + 1 and importing that value
stores the original channel again, for every stored channel at most 15. -/
theorem claim_C9 (st : DeviceState) (h : st.channel ≤ 15) :
    Device.exportChannel st = st.channel + 1 ∧
    (Device.importConfiguration st (some (Device.exportChannel st))).channel =
      st.channel := by
  refine ⟨rfl, ?_⟩
  simp only [Device.importConfiguration, Device.exportChannel, importChannel]
  split_ifs <;> omega

/-- Closed instance of claim C9 at stored channel 7. -/
theorem claim_C9_witness :
    (Device.importConfiguration { deviceInit with channel := 7 }
        (some (Device.exportChannel { deviceInit with channel := 7 }))).channel =
      7 := by
  have h := (claim_C9 { deviceInit with channel := 7 } (by decide)).2
  simpa using h

/-- Claim C10: a control-change message whose controller is neither
AllSoundOff nor AllNotesOff leaves the whole device state unchanged and
emits no outgoing message. -/
theorem claim_C10 (st : DeviceState) (ch ctrl v : Nat)
    (h1 : ctrl ≠ CC.AllSoundOff) (h2 : ctrl ≠ CC.AllNotesOff) :
    Device.handleControlChange st ch ctrl v = (st, []) := by
  simp [Device.handleControlChange, h1, h2]

/-- Closed instance of claim C10 at controller 21. -/
theorem claim_C10_witness :
    Device.handleControlChange deviceInit 0 21 0 = (deviceInit, []) :=
  claim_C10 deviceInit 0 21 0 (by decide) (by decide)

/-- Claim C6: a control-change with controller AllSoundOff or AllNotesOff
triggers a forced emission pass that emits exactly n_potis messages, one
per channel, each carrying the current quantized step of its channel on
the configured logical channel, regardless of the cached steps. -/
theorem claim_C6 (st : DeviceState) (ch v ctrl : Nat)
    (h : ctrl = CC.AllSoundOff ∨ ctrl = CC.AllNotesOff) :
    (Device.handleControlChange st ch ctrl v).2 =
      [{ channel := st.channel
         controller := CC.GeneralPurpose1
         value := (st.potis 0).step },
       { channel := st.channel
         controller := CC.GeneralPurpose1 + 1
         value := (st.potis 1).step }] ∧
    (Device.handleControlChange st ch ctrl v).2.length = n_potis := by
  have hcc : Device.handleControlChange st ch ctrl v = Device.allNotesOff st := by
    rcases h with h | h <;> simp [Device.handleControlChange, h]
  rw [hcc]
  simp [Device.allNotesOff, Device.sendEvents, Device.sendEventsChannel]

/-- Closed instance of claim C6 at the initial state and controller
AllSoundOff. -/
theorem claim_C6_witness :
    (Device.handleControlChange deviceInit 0 CC.AllSoundOff 0).2 =
      [{ channel := 0, controller := 16, value := 0 },
       { channel := 0, controller := 17, value := 0 }] ∧
    (Device.handleControlChange deviceInit 0 CC.AllSoundOff 0).2.length = 2 := by
  have h := claim_C6 deviceInit 0 0 CC.AllSoundOff (Or.inl rfl)
  simpa [deviceInit, potiReset, CC.GeneralPurpose1] using h

/-- Claim C1: in an unforced emission pass, channel i emits exactly one
control-change message, carrying controller CC.GeneralPurpose1 + i and the
current quantized step as the value on the configured logical channel,
exactly when the current step differs from the cached last-emitted step;
on emission the pixel brightness of channel i becomes the sampler fraction
and the cached step becomes the emitted step; otherwise channel i emits no
message and its cache and pixel are untouched. -/
theorem claim_C1 (st : DeviceState) (i : Fin n_potis) :
    msgsFor i (Device.sendEvents st false).2 =
      (if st.steps i = (st.potis i).step then []
       else [{ channel := st.channel
               controller := CC.GeneralPurpose1 + i.val
               value := (st.potis i).step }]) ∧
    (Device.sendEvents st false).1.steps i =
      (if st.steps i = (st.potis i).step then st.steps i
       else (st.potis i).step) ∧
    (Device.sendEvents st false).1.leds i.val =
      (if st.steps i = (st.potis i).step then st.leds i.val
       else Led.brightness (st.potis i).fraction) := by
  fin_cases i <;>
    by_cases h0 : st.steps 0 = (st.potis 0).step <;>
    by_cases h1 : st.steps 1 = (st.potis 1).step <;>
    simp [Device.sendEvents, Device.sendEventsChannel, msgsFor, h0, h1,
      Function.update, CC.GeneralPurpose1, Fin.ext_iff]

/-- Counterexample to claim C4 as stated: at note 60 (base note) with
velocity 127, the code sets the pixel to HSV value 127 / 127 = 1, not to
the velocity fraction scaled into the configured [min, max] range, which
would be 0.7. -/
theorem claim_C4_counterexample :
    (Device.play deviceInit 60 127).leds 0 = Led.hsv 120 1 1 ∧
    displayIntensitySpec 127 = 7 / 10 ∧
    (Device.play deviceInit 60 127).leds 0 ≠
      Led.hsv 120 1 (displayIntensitySpec 127) := by
  have h1 : (Device.play deviceInit 60 127).leds 0 = Led.hsv 120 1 1 := by
    norm_num [Device.play, V2MIDI.C, deviceInit, Function.update]
  have h2 : displayIntensitySpec 127 = 7 / 10 := by
    norm_num [displayIntensitySpec, potiConfigMin, potiConfigMax]
  refine ⟨h1, h2, ?_⟩
  rw [h1, h2]
  intro hcon
  simp only [Led.hsv.injEq] at hcon
  norm_num at hcon

/-- Claim C4 as amended: a note-on with positive velocity whose note lies
in [V2MIDI.C 3, V2MIDI.C 3 + n_potis) sets the pixel of channel
note - V2MIDI.C 3 to HSV value velocity / 127 directly (no scaling into
the configured [min, max] range) and lights the status indicator; velocity
0 in that range switches the pixel of that channel and the status
indicator off; any note outside the range changes nothing. -/
theorem claim_C4 (st : DeviceState) (note velocity : Int) :
    (V2MIDI.C 3 ≤ note → note < V2MIDI.C 3 + n_potis → 0 < velocity →
      Device.play st note velocity =
        { st with
            ledOnboard := true
            leds := Function.update st.leds (note - V2MIDI.C 3).toNat
                      (Led.hsv 120 1 ((velocity : Rat) / 127)) }) ∧
    (V2MIDI.C 3 ≤ note → note < V2MIDI.C 3 + n_potis → velocity ≤ 0 →
      Device.play st note velocity =
        { st with
            ledOnboard := false
            leds := Function.update st.leds (note - V2MIDI.C 3).toNat
                      (Led.brightness 0) }) ∧
    ((note < V2MIDI.C 3 ∨ V2MIDI.C 3 + n_potis ≤ note) →
      Device.play st note velocity = st) := by
  have hC : V2MIDI.C 3 = 60 := by norm_num [V2MIDI.C]
  refine ⟨?_, ?_, ?_⟩
  · intro hlo hhi hv
    rw [hC] at hlo hhi ⊢
    rw [Device.play, hC]
    rw [if_neg (by omega), if_neg (by omega), if_pos hv]
  · intro hlo hhi hv
    rw [hC] at hlo hhi ⊢
    rw [Device.play, hC]
    rw [if_neg (by omega), if_neg (by omega), if_neg (by omega)]
  · intro hout
    rw [hC] at hout
    rw [Device.play, hC]
    rcases hout with hlt | hge
    · rw [if_pos hlt]
    · rw [if_neg (by omega), if_pos (by simp only [n_potis] at hge ⊢; omega)]

/-- Closed instance of amended claim C4: note 60 velocity 64 turns channel
0 on at HSV value 64 / 127, note 61 velocity 0 turns channel 1 off, and
note 62 is out of range and changes nothing. -/
theorem claim_C4_witness :
    Device.play deviceInit 60 64 =
      { deviceInit with
          ledOnboard := true
          leds := Function.update deviceInit.leds 0
                    (Led.hsv 120 1 ((64 : Rat) / 127)) } ∧
    Device.play deviceInit 61 0 =
      { deviceInit with
          ledOnboard := false
          leds := Function.update deviceInit.leds 1 (Led.brightness 0) } ∧
    Device.play deviceInit 62 9 = deviceInit := by
  refine ⟨?_, ?_, ?_⟩
  · have h := (claim_C4 deviceInit 60 64).1 (by decide) (by decide) (by decide)
    simpa using h
  · have h := (claim_C4 deviceInit 61 0).2.1 (by decide) (by decide) (by decide)
    simpa using h
  · exact (claim_C4 deviceInit 62 9).2.2 (Or.inr (by decide))

/-- An emission pass never touches the samplers, the timer references or
the configured channel. -/
theorem sendEventsPreserves (st : DeviceState) (f : Bool) :
    (Device.sendEvents st f).1.potis = st.potis ∧
    (Device.sendEvents st f).1.measureUsec = st.measureUsec ∧
    (Device.sendEvents st f).1.eventsUsec = st.eventsUsec ∧
    (Device.sendEvents st f).1.channel = st.channel := by
  simp only [Device.sendEvents, Device.sendEventsChannel]
  split_ifs <;> simp

/-- Counterexample to claim C5 as stated: with the sampling timer reference
at 0 and the clock at exactly 10000 microseconds, the elapsed time equals
10 ms, yet the sampling task does not fire: the reference is not moved to
the new reading 99 and the samplers are untouched, because the code tests
with a strict greater-than. -/
theorem claim_C5_counterexample :
    usub32 (10 * 1000) deviceInit.measureUsec = 10 * 1000 ∧
    (Device.handleLoop deviceInit (10 * 1000) 99 0 0 (fun _ => 1)
        (fun p r => { step := p.step + 1, fraction := r })).1.measureUsec = 0 ∧
    (Device.handleLoop deviceInit (10 * 1000) 99 0 0 (fun _ => 1)
        (fun p r => { step := p.step + 1, fraction := r })).1.potis 0 =
      potiReset := by
  refine ⟨by decide, ?_, ?_⟩ <;>
    simp [Device.handleLoop, Device.handleLoopMeasure, deviceInit,
      Device.sendEvents, Device.sendEventsChannel, usub32, U32]

/-- Claim C5 as amended: on one poll iteration the sampling task fires
exactly when the wraparound-safe elapsed time strictly exceeds 10 ms, and
the emission task exactly when it strictly exceeds 50 ms; a firing task
records the fresh clock reading as its new reference and runs its action
exactly once, however overdue it is; a non-firing task leaves its state
untouched and emits nothing. -/
theorem claim_C5 (st : DeviceState) (t1 t2 t3 t4 : Nat)
    (raw : Fin n_potis → Rat) (measureFn : Poti → Rat → Poti) :
    (10 * 1000 < usub32 t1 st.measureUsec →
      (Device.handleLoop st t1 t2 t3 t4 raw measureFn).1.measureUsec = t2 ∧
      ∀ i, (Device.handleLoop st t1 t2 t3 t4 raw measureFn).1.potis i =
        measureFn (st.potis i) (raw i)) ∧
    (¬ 10 * 1000 < usub32 t1 st.measureUsec →
      (Device.handleLoop st t1 t2 t3 t4 raw measureFn).1.measureUsec =
        st.measureUsec ∧
      (Device.handleLoop st t1 t2 t3 t4 raw measureFn).1.potis = st.potis) ∧
    (50 * 1000 < usub32 t3 st.eventsUsec →
      (Device.handleLoop st t1 t2 t3 t4 raw measureFn).1.eventsUsec = t4 ∧
      (Device.handleLoop st t1 t2 t3 t4 raw measureFn).2 =
        (Device.sendEvents (Device.handleLoopMeasure st t1 t2 raw measureFn)
          false).2) ∧
    (¬ 50 * 1000 < usub32 t3 st.eventsUsec →
      (Device.handleLoop st t1 t2 t3 t4 raw measureFn).1.eventsUsec =
        st.eventsUsec ∧
      (Device.handleLoop st t1 t2 t3 t4 raw measureFn).2 = []) := by
  have hev : (Device.handleLoopMeasure st t1 t2 raw measureFn).eventsUsec =
      st.eventsUsec := by
    simp only [Device.handleLoopMeasure]
    split_ifs <;> rfl
  have hpre := sendEventsPreserves (Device.handleLoopMeasure st t1 t2 raw measureFn)
    false
  have hL : Device.handleLoop st t1 t2 t3 t4 raw measureFn =
      (if 50 * 1000 < usub32 t3 st.eventsUsec then
        ({ (Device.sendEvents (Device.handleLoopMeasure st t1 t2 raw measureFn)
              false).1 with eventsUsec := t4 },
         (Device.sendEvents (Device.handleLoopMeasure st t1 t2 raw measureFn)
            false).2)
      else (Device.handleLoopMeasure st t1 t2 raw measureFn, [])) := by
    simp only [Device.handleLoop, hev, gt_iff_lt]
  refine ⟨fun hm => ?_, fun hm => ?_, fun he => ?_, fun he => ?_⟩
  · have hMm : (Device.handleLoopMeasure st t1 t2 raw measureFn).measureUsec = t2 := by
      simp only [Device.handleLoopMeasure, gt_iff_lt, if_pos hm]
    have hMp : (Device.handleLoopMeasure st t1 t2 raw measureFn).potis =
        fun i => measureFn (st.potis i) (raw i) := by
      simp only [Device.handleLoopMeasure, gt_iff_lt, if_pos hm]
    rw [hL]
    split_ifs with he
    · exact ⟨by simp [hpre.2.1, hMm], fun i => by simp [congrFun hpre.1 i, congrFun hMp i]⟩
    · exact ⟨hMm, fun i => congrFun hMp i⟩
  · have hMm : Device.handleLoopMeasure st t1 t2 raw measureFn = st := by
      simp only [Device.handleLoopMeasure, gt_iff_lt, if_neg hm]
    rw [hMm] at hpre
    rw [hL, hMm]
    split_ifs with he
    · exact ⟨hpre.2.1, hpre.1⟩
    · exact ⟨rfl, rfl⟩
  · rw [hL, if_pos he]
    exact ⟨rfl, rfl⟩
  · rw [hL, if_neg he]
    exact ⟨hev, rfl⟩

/-- Closed instance of amended claim C5: from the initial state with both
references at 0 and readings 20000 and 60000 microseconds, both tasks fire
and record the fresh readings 123 and 456. -/
theorem claim_C5_witness :
    (Device.handleLoop deviceInit 20000 123 60000 456 (fun _ => 0)
        (fun p _ => p)).1.measureUsec = 123 ∧
    (Device.handleLoop deviceInit 20000 123 60000 456 (fun _ => 0)
        (fun p _ => p)).1.eventsUsec = 456 :=
  ⟨((claim_C5 deviceInit 20000 123 60000 456 (fun _ => 0) (fun p _ => p)).1
      (by decide)).1,
   ((claim_C5 deviceInit 20000 123 60000 456 (fun _ => 0) (fun p _ => p)).2.2.1
      (by decide)).1⟩
